import Mathlib

/-!
Verification development for the a2a-samples agents.

Shallow embedding of the agent code:
  - samples/python/agents/langgraph/app/agent.py        (CurrencyAgent)
  - samples/python/agents/langgraph/app/currency_service.py (CurrencyService)
  - samples/python/agents/langgraph_2/app/agent.py      (UnitConversionAgent, convert_units)
  - samples/python/agents/adobe_split/app/agent.py      (PdfSplitAgent)

External effects (the HTTP layer, the langgraph runtime, the ADK runner,
the MCP child process) are modelled as explicit behaviour parameters, so
every embedded operation is a pure function of its inputs and of the
behaviour of its environment.  Python exceptions are modelled with
Except: a value `Except.error e` means the Python code raises `e`
uncaught; `Except.ok v` means it returns `v`.
-/

/-- Python exceptions relevant to the embedded code. -/
inductive PyErr
  | typeError (msg : String)
  | graphRecursionError
  deriving DecidableEq, Repr

/-- A JSON value, as produced by `response.json()`.  A JSON number is
carried as its decimal literal text, since no embedded operation does
arithmetic on decoded numbers. -/
inductive Json
  | obj (fields : List (String × Json))
  | arr (items : List Json)
  | str (s : String)
  | num (lit : String)
  | bool (b : Bool)
  | null

namespace Json

/-- Whether a JSON value equals (under Python `==`) the string `k`:
only a JSON string with the same characters does. -/
def eqStr (j : Json) (k : String) : Bool :=
  match j with
  | .str s => s == k
  | _ => false

/-- Whether a JSON object field list has a binding for `k`. -/
def hasKey (fields : List (String × Json)) (k : String) : Bool :=
  fields.any (fun p => p.1 == k)

/-- The Python membership test `k in data` / `k not in data` on a decoded
JSON value: key membership for dicts, element membership for lists,
substring membership for strings, and a `TypeError` for scalars and
`None` (Python: argument of type `int`, `float`, `bool` or `NoneType`
is not iterable). -/
def pyContains (data : Json) (k : String) : Except PyErr Bool :=
  match data with
  | .obj fields => .ok (hasKey fields k)
  | .arr items => .ok (items.any (fun j => j.eqStr k))
  | .str s => .ok ((s.splitOn k).length ≥ 2)
  | .num lit => .error (.typeError ("argument of type number is not iterable: " ++ lit))
  | .bool _ => .error (.typeError "argument of type bool is not iterable")
  | .null => .error (.typeError "argument of type NoneType is not iterable")

end Json

/-- A response body: either text that decodes as JSON or text that does
not (in which case `response.json()` raises a `ValueError`). -/
inductive HttpBody
  | jsonBody (j : Json)
  | invalidJson (raw : String)

/-- Behaviour of one HTTP exchange as seen through `httpx.get`:
either a network-level error (connection refused, timeout — raised as a
subclass of `httpx.HTTPError`) or a response with a status code and a
body. -/
inductive HttpBehaviour
  | networkError (msg : String)
  | response (status : Nat) (body : HttpBody)

/-- `response.raise_for_status()` raises `httpx.HTTPStatusError` (a
subclass of `httpx.HTTPError`) exactly when the status code is not 2xx. -/
def raiseForStatusFails (status : Nat) : Bool :=
  status < 200 || 300 ≤ status

namespace CurrencyService

/-- Embedding of `CurrencyService.get_exchange_rate`
(samples/python/agents/langgraph/app/currency_service.py, lines 4-36).

The `try` block performs the HTTP request, `raise_for_status`, JSON
decoding, and the `if 'rates' not in data` check; `except httpx.HTTPError`
and `except ValueError` convert those failures to error dictionaries.
A `TypeError` raised by the membership test is caught by neither handler
and propagates. -/
def get_exchange_rate (currency_from currency_to currency_date : String)
    (http : HttpBehaviour) : Except PyErr Json :=
  match http with
  | .networkError msg =>
      .ok (.obj [("error", .str ("API request failed: " ++ msg))])
  | .response status body =>
      if raiseForStatusFails status then
        .ok (.obj [("error", .str ("API request failed: HTTP status " ++ toString status))])
      else
        match body with
        | .invalidJson _ =>
            .ok (.obj [("error", .str "Invalid JSON response from API.")])
        | .jsonBody data =>
            match data.pyContains "rates" with
            | .error e => .error e
            | .ok true => .ok data
            | .ok false => .ok (.obj [("error", .str "Invalid API response format.")])

end CurrencyService

/-- The status literal of the `ResponseFormat` pydantic model
(`Literal['input_required', 'completed', 'error']`). -/
inductive Status
  | input_required
  | completed
  | error
  deriving DecidableEq, Repr

/-- Embedding of the `ResponseFormat` pydantic model shared by
CurrencyAgent and UnitConversionAgent. -/
structure ResponseFormat where
  status : Status
  message : String
  deriving DecidableEq, Repr

/-- A value found under the `structured_response` key of the graph
state: either an actual `ResponseFormat` instance or some other
(non-`ResponseFormat`) object.  `isinstance(x, ResponseFormat)` holds
exactly for the first constructor; a pydantic model instance is always
truthy. -/
inductive StateValue
  | respFormat (r : ResponseFormat)
  | nonRespFormat
  deriving DecidableEq, Repr

/-- A caller-facing event dictionary yielded by the langgraph agents:
keys `is_task_complete`, `require_user_input`, `content`. -/
structure AgentEvent where
  is_task_complete : Bool
  require_user_input : Bool
  content : String
  deriving DecidableEq, Repr

/-- The fixed fallback dictionary returned by `get_agent_response` when
no well-formed structured response is available. -/
def fallbackResponse : AgentEvent :=
  { is_task_complete := false
    require_user_input := true
    content := "We are unable to process your request at the moment. Please try again." }

/-- A tool call attached to an `AIMessage` (name and serialized args). -/
structure ToolCall where
  name : String
  args : List (String × String)
  deriving DecidableEq, Repr

/-- The last message of a graph state item, as classified by the
`stream` loops: an `AIMessage` carrying its `tool_calls` list, a
`ToolMessage`, or any other message (e.g. the human query). -/
inductive GraphMessage
  | ai (toolCalls : List ToolCall)
  | toolMsg (content : String)
  | human (content : String)
  deriving DecidableEq, Repr

namespace CurrencyAgent

/-- Embedding of `CurrencyAgent.get_agent_response`
(samples/python/agents/langgraph/app/agent.py, lines 142-175), as a
function of the `structured_response` value of the graph state for the
given config.  `structured_response and isinstance(structured_response,
ResponseFormat)` selects the three status branches; everything else
falls through to the fixed fallback dictionary. -/
def get_agent_response (structured_response : Option StateValue) : AgentEvent :=
  match structured_response with
  | some (.respFormat r) =>
      match r.status with
      | .input_required =>
          { is_task_complete := false, require_user_input := true, content := r.message }
      | .error =>
          { is_task_complete := false, require_user_input := true, content := r.message }
      | .completed =>
          { is_task_complete := true, require_user_input := false, content := r.message }
  | some .nonRespFormat => fallbackResponse
  | none => fallbackResponse

/-- The event (if any) yielded by the body of the `async for` loop in
`CurrencyAgent.stream` (agent.py, lines 100-117) for one streamed graph
item, keyed on `item['messages'][-1]`. -/
def streamEventFor (m : GraphMessage) : Option AgentEvent :=
  match m with
  | .ai toolCalls =>
      if toolCalls.length > 0 then
        some { is_task_complete := false, require_user_input := false
               content := "Looking up the exchange rates..." }
      else none
  | .toolMsg _ =>
      some { is_task_complete := false, require_user_input := false
             content := "Processing the exchange rates.." }
  | .human _ => none

/-- Embedding of `CurrencyAgent.stream` (agent.py, lines 95-119): the
loop yields one optional progress event per streamed item, and after the
loop the agent response for the final graph state is yielded. -/
def stream (items : List GraphMessage) (structured_response : Option StateValue) :
    List AgentEvent :=
  items.filterMap streamEventFor ++ [get_agent_response structured_response]

end CurrencyAgent

namespace UnitConversionAgent

/-- Embedding of `UnitConversionAgent.get_agent_response`
(samples/python/agents/langgraph_2/app/agent.py, lines 167-199). -/
def get_agent_response (structured_response : Option StateValue) : AgentEvent :=
  match structured_response with
  | some (.respFormat r) =>
      match r.status with
      | .input_required =>
          { is_task_complete := false, require_user_input := true, content := r.message }
      | .error =>
          { is_task_complete := false, require_user_input := true, content := r.message }
      | .completed =>
          { is_task_complete := true, require_user_input := false, content := r.message }
  | some .nonRespFormat => fallbackResponse
  | none => fallbackResponse

/-- The event (if any) yielded by the loop body of
`UnitConversionAgent.stream` (agent.py lines 146-163) for one item. -/
def streamEventFor (m : GraphMessage) : Option AgentEvent :=
  match m with
  | .ai toolCalls =>
      if toolCalls.length > 0 then
        some { is_task_complete := false, require_user_input := false
               content := "Converting units..." }
      else none
  | .toolMsg _ =>
      some { is_task_complete := false, require_user_input := false
             content := "Processing the conversion..." }
  | .human _ => none

/-- Embedding of `UnitConversionAgent.stream` (agent.py, lines 142-165). -/
def stream (items : List GraphMessage) (structured_response : Option StateValue) :
    List AgentEvent :=
  items.filterMap streamEventFor ++ [get_agent_response structured_response]

end UnitConversionAgent

/-- Behaviour of one HTTP exchange whose body is consumed as plain text
(`response.text`), as used by `convert_units` against the UCUM service. -/
inductive TextHttpBehaviour
  | networkError (msg : String)
  | response (status : Nat) (text : String)

/-- The numeric-prefix extraction loop of `convert_units`
(langgraph_2/app/agent.py, lines 56-61): scan the characters, collect
digits, dots and minus signs, and stop at the first other character
once at least one character has been collected. -/
def extractNumericChars : List Char → String → String
  | [], acc => acc
  | c :: cs, acc =>
      if c.isDigit || c == '.' || c == '-' then extractNumericChars cs (acc.push c)
      else if acc ≠ "" then acc
      else extractNumericChars cs acc

/-- Whether Python `float(s)` succeeds on a string drawn from digits,
dots and minus signs: an optional leading minus, then at least one
digit, only digits and at most one dot after the sign. -/
def isValidFloatLit (s : String) : Bool :=
  let body := if s.startsWith "-" then s.drop 1 else s
  body.any Char.isDigit &&
  body.all (fun c => c.isDigit || c == '.') &&
  (body.data.filter (fun c => c == '.')).length ≤ 1

/-- Embedding of the `convert_units` tool
(samples/python/agents/langgraph_2/app/agent.py, lines 17-86).

The whole body sits in a `try` whose handlers cover `httpx.HTTPError`,
`ValueError` and finally `Exception`, so every failure path returns an
error dictionary and no exception escapes.  The result dictionary is
modelled as an association list from keys to displayed values; the
converted float is carried as the parsed literal, since no claim
depends on float arithmetic. -/
def convert_units (value from_unit to_unit : String) (http : TextHttpBehaviour) :
    Except PyErr (List (String × String)) :=
  match http with
  | .networkError msg =>
      .ok [("error", "API request failed: " ++ msg)]
  | .response status text =>
      if raiseForStatusFails status then
        .ok [("error", "API request failed: HTTP status " ++ toString status)]
      else
        let data := text.trim
        if (data.splitOn "Result:").length ≥ 2 then
          let parts := data.splitOn "="
          if parts.length == 2 then
            let converted_string := (parts.getD 1 "").trim
            let converted_value_str := extractNumericChars converted_string.data ""
            if isValidFloatLit converted_value_str then
              .ok [("original_value", value),
                   ("from_unit", from_unit),
                   ("to_unit", to_unit),
                   ("converted_value", converted_value_str),
                   ("conversion", data.replace "Result: " "")]
            else
              .ok [("error", "Could not parse converted value from API response: " ++ converted_string)]
          else
            .ok [("error", "Unexpected UCUM API response format: " ++ data)]
        else
          .ok [("error", "UCUM API conversion failed: " ++ data)]

/-- Whether an embedded Python call raises an uncaught exception. -/
def pyRaises {α : Type} (x : Except PyErr α) : Bool :=
  match x with
  | .error _ => true
  | .ok _ => false

/-- An event produced by the ADK runner as seen by `PdfSplitAgent.stream`:
whether `event.is_final_response()` holds, and the text parts of
`event.content` (`none` for a part whose `text` is `None`; an absent
`content` is modelled as an empty part list). -/
structure AdkEvent where
  isFinalResponse : Bool
  parts : List (Option String)

/-- A caller-facing event dictionary yielded by `PdfSplitAgent.stream`:
keys `is_task_complete` and `content`. -/
structure PdfEvent where
  is_task_complete : Bool
  content : String
  deriving DecidableEq, Repr

namespace PdfSplitAgent

/-- The fixed processing message returned by
`PdfSplitAgent.get_processing_message` (adobe_split/app/agent.py,
lines 166-167). -/
def get_processing_message : String :=
  "Processing the PDF split request..."

/-- The truthy text parts of an event content
(`[p.text for p in event.content.parts if p.text]`). -/
def truthyTexts (parts : List (Option String)) : List String :=
  parts.filterMap (fun p =>
    match p with
    | some t => if t ≠ "" then some t else none
    | none => none)

/-- The response text computed for a final-response event
(adobe_split/app/agent.py, lines 218-226): the newline join of the
truthy part texts when `event.content and event.content.parts and
event.content.parts[0].text` is truthy, and the empty string otherwise. -/
def finalResponseText (parts : List (Option String)) : String :=
  match parts.head? with
  | some (some t) => if t ≠ "" then String.intercalate "\n" (truthyTexts parts) else ""
  | _ => ""

/-- The event yielded by the loop body of `PdfSplitAgent.stream`
(adobe_split/app/agent.py, lines 214-235) for one runner event. -/
def streamEventFor (e : AdkEvent) : PdfEvent :=
  if e.isFinalResponse then
    { is_task_complete := true, content := finalResponseText e.parts }
  else
    { is_task_complete := false, content := get_processing_message }

/-- Embedding of `PdfSplitAgent.stream` (adobe_split/app/agent.py,
lines 197-235): one caller-facing event per runner event. -/
def stream (events : List AdkEvent) : List PdfEvent :=
  events.map streamEventFor

/-- Modelled from the spec: the ADK `Runner.run_async` driving
`PdfSplitAgent.stream` is library code not under src/.  Per the spec,
the Turn Engine reaches `Terminal` exactly once per turn and the
underlying event sequence is finite with exactly one final response,
which is its last element. -/
def runnerWellFormed (events : List AdkEvent) : Bool :=
  events.countP (fun e => e.isFinalResponse) == 1 &&
  (match events.getLast? with
   | some e => e.isFinalResponse
   | none => false)

end PdfSplitAgent

/-! ## Spec-modelled components

The Turn Engine (the ReAct loop built by `create_react_agent`) and the
child-process (stdio MCP) transport adapter are driven from src/ (by
`CurrencyAgent.invoke`, `CurrencyAgent.stream` and
`CurrencyAgent._initialize_tools`) but their loop and channel code lives
in libraries outside src/.  They are modelled here from the spec
(sections 4.2 and 4.3). -/

/-- A tool invocation requested by the reasoning step. -/
structure ToolInvocation where
  name : String
  args : List (String × String)
  deriving DecidableEq, Repr

/-- The outcome of dispatching a tool invocation. -/
inductive ToolResultOutcome
  | success (payload : String)
  | failure (err : String)
  deriving DecidableEq, Repr

/-- A message of the evolving turn history. -/
inductive HistMsg
  | user (content : String)
  | assistantToolCall (inv : ToolInvocation)
  | toolResult (r : ToolResultOutcome)
  deriving DecidableEq, Repr

/-- The reasoning step output: a discriminated union of a tool-call
request and a terminal structured response. -/
inductive ReasoningOutput
  | toolCall (inv : ToolInvocation)
  | finalResponse (r : ResponseFormat)
  deriving DecidableEq, Repr

/-- Modelled from the spec: the Turn Engine of section 4.3 (in the code,
the graph built by `create_react_agent`, whose loop is library code not
under src/).  Each cycle passes the history to the reasoning step; a
terminal structured response ends the turn, a tool-call request is
dispatched and its result folded into history.  The engine enforces the
turn budget as an explicit cap on Reasoning-Dispatching cycles:
exhausting it forces a synthetic structured response with status error
and message TurnBudgetExceeded.  Returns the terminal response together
with the number of Dispatching cycles executed. -/
def runTurn (reason : List HistMsg → ReasoningOutput)
    (dispatch : ToolInvocation → ToolResultOutcome) :
    Nat → List HistMsg → ResponseFormat × Nat
  | 0, _ => ({ status := .error, message := "TurnBudgetExceeded" }, 0)
  | b + 1, hist =>
      match reason hist with
      | .finalResponse r => (r, 0)
      | .toolCall inv =>
          let rest := runTurn reason dispatch b
            (hist ++ [.assistantToolCall inv, .toolResult (dispatch inv)])
          (rest.1, rest.2 + 1)

/-- Errors of the child-process transport adapter (spec section 7). -/
inductive AdapterError
  | transportError
  | handshakeError
  deriving DecidableEq, Repr

/-- Result of one invocation through the child-process adapter. -/
inductive AdapterResult
  | success (payload : String)
  | failure (e : AdapterError)
  deriving DecidableEq, Repr

/-- Environment behaviour of one invocation through the child-process
channel: the child answers, crashes mid-invocation, or the configured
timeout elapses without a response. -/
inductive InvocationBehaviour
  | completes (payload : String)
  | crashesMidInvocation
  | timesOut
  deriving DecidableEq, Repr

/-- Modelled from the spec: the child-process (stdio MCP) transport
adapter of section 4.2 (in the code, the `stdio_client` and
`ClientSession` machinery used by `CurrencyAgent._initialize_tools`,
which is library code not under src/).  The adapter is usable after a
successful handshake; a crash or timeout fails the pending invocation
with TransportError and marks the adapter unusable until restart. -/
structure ChildAdapter where
  usable : Bool
  deriving DecidableEq, Repr

namespace ChildAdapter

/-- Modelled from the spec: one invocation through the adapter, given
the behaviour of the child process, returning the tool result and the
adapter state after the invocation.  An unusable adapter fails every
invocation immediately with HandshakeError. -/
def invoke (a : ChildAdapter) (beh : InvocationBehaviour) :
    AdapterResult × ChildAdapter :=
  if a.usable then
    match beh with
    | .completes payload => (.success payload, a)
    | .crashesMidInvocation => (.failure .transportError, { usable := false })
    | .timesOut => (.failure .transportError, { usable := false })
  else
    (.failure .handshakeError, a)

/-- Modelled from the spec: the explicit restart operation, after which
the adapter is usable again. -/
def restart (_ : ChildAdapter) : ChildAdapter :=
  { usable := true }

end ChildAdapter

/-! ## CurrencyAgent tool initialization (for C10) -/

/-- What one successful run of the initialization body produces: the
session created by `stdio_client` + `ClientSession` and the tool list
reported by `load_mcp_tools`. -/
structure McpInitEnv where
  sessionId : Nat
  loadedTools : List String
  deriving DecidableEq, Repr

/-- The initialization-relevant resources of a `CurrencyAgent` instance
(`self.session`, `self.tools`, `self.graph`), plus an instrumentation
counter of how many times a child process has been started
(`stdio_client(...).__aenter__`).  The graph is determined by the tools
it was built with. -/
structure CurrencyAgentRes where
  session : Option Nat
  tools : Option (List String)
  graph : Option (List String)
  childStarts : Nat
  deriving DecidableEq, Repr

namespace CurrencyAgent

/-- The resource state set up by `CurrencyAgent.__init__` (agent.py,
lines 62-65): no session, no tools, no graph. -/
def initialState : CurrencyAgentRes :=
  { session := none, tools := none, graph := none, childStarts := 0 }

/-- Embedding of `CurrencyAgent._initialize_tools` (agent.py, lines
67-87): guarded on `self.tools is None`, it starts the child process,
opens the MCP session, loads the tools and builds the graph; otherwise
it leaves the state untouched. -/
def initialize_tools (env : McpInitEnv) (s : CurrencyAgentRes) : CurrencyAgentRes :=
  if s.tools.isNone then
    { session := some env.sessionId
      tools := some env.loadedTools
      graph := some env.loadedTools
      childStarts := s.childStarts + 1 }
  else
    s

/-- The initialization effect of a sequence of `invoke`/`stream` calls
(each such call begins with `await self._initialize_tools()`; agent.py,
lines 89-90 and 95-96), each call under its own environment. -/
def runInitCalls (envs : List McpInitEnv) (s : CurrencyAgentRes) : CurrencyAgentRes :=
  envs.foldl (fun st e => initialize_tools e st) s

end CurrencyAgent

/-! ## Helper lemmas -/

/-- The status discriminator the amended C1 uses: whether the graph
state holds a well-formed structured response with status completed. -/
def srIsCompleted : Option StateValue → Bool
  | some (.respFormat { status := .completed, message := _ }) => true
  | _ => false

theorem getLast_append_singleton {α : Type} (l : List α) (a : α) :
    (l ++ [a]).getLast? = some a :=
  List.getLast?_concat l

theorem countP_filterMap_eq_zero {α β : Type} (f : α → Option β) (p : β → Bool)
    (h : ∀ a b, f a = some b → p b = false) (l : List α) :
    (l.filterMap f).countP p = 0 := by
  induction l with
  | nil => rfl
  | cons a t ih =>
      cases hfa : f a with
      | none => simp [List.filterMap_cons, hfa, ih]
      | some b => simp [List.filterMap_cons, hfa, List.countP_cons, h a b hfa, ih]

theorem CurrencyAgent.currency_streamEventFor_not_final (m : GraphMessage) (e : AgentEvent)
    (h : CurrencyAgent.streamEventFor m = some e) : e.is_task_complete = false := by
  cases m with
  | ai toolCalls =>
      by_cases hc : toolCalls.length > 0 <;>
        simp [CurrencyAgent.streamEventFor, hc] at h <;> simp [← h]
  | toolMsg c => simp [CurrencyAgent.streamEventFor] at h; simp [← h]
  | human c => simp [CurrencyAgent.streamEventFor] at h

theorem UnitConversionAgent.unit_streamEventFor_not_final (m : GraphMessage) (e : AgentEvent)
    (h : UnitConversionAgent.streamEventFor m = some e) : e.is_task_complete = false := by
  cases m with
  | ai toolCalls =>
      by_cases hc : toolCalls.length > 0 <;>
        simp [UnitConversionAgent.streamEventFor, hc] at h <;> simp [← h]
  | toolMsg c => simp [UnitConversionAgent.streamEventFor] at h; simp [← h]
  | human c => simp [UnitConversionAgent.streamEventFor] at h

theorem CurrencyAgent.currency_response_final_iff (sr : Option StateValue) :
    (CurrencyAgent.get_agent_response sr).is_task_complete = srIsCompleted sr := by
  match sr with
  | none => rfl
  | some .nonRespFormat => rfl
  | some (.respFormat { status := st, message := m }) => cases st <;> rfl

theorem UnitConversionAgent.unit_response_final_iff (sr : Option StateValue) :
    (UnitConversionAgent.get_agent_response sr).is_task_complete = srIsCompleted sr := by
  match sr with
  | none => rfl
  | some .nonRespFormat => rfl
  | some (.respFormat { status := st, message := m }) => cases st <;> rfl

theorem PdfSplitAgent.streamEventFor_final_iff (e : AdkEvent) :
    (PdfSplitAgent.streamEventFor e).is_task_complete = e.isFinalResponse := by
  unfold PdfSplitAgent.streamEventFor
  by_cases h : e.isFinalResponse <;> simp [h]

/-! ## C1 -/

/-- C1, as stated, is false: a turn whose structured response has status
input_required yields a stream with zero events marked final
(`is_task_complete = true`), not exactly one.  Concretely, for
CurrencyAgent.stream with no intermediate items and structured response
input_required, the number of final events is 0. -/
theorem C1_counterexample :
    ((CurrencyAgent.stream []
        (some (.respFormat { status := .input_required, message := "Please specify the currencies." }))).countP
      (fun e => e.is_task_complete)) ≠ 1 := by
  decide

/-- C1 (amended): for every turn of CurrencyAgent.stream and
UnitConversionAgent.stream, the yielded event sequence is finite and
nonempty, its last element is the terminal agent response, the number of
events marked final (`is_task_complete = true`) is 1 when the structured
response is a well-formed ResponseFormat with status completed and 0
otherwise, and any final event is the last element.  For
PdfSplitAgent.stream, if the underlying runner event sequence is
well-formed (finite with exactly one final response, in last position —
spec-modelled), the stream contains exactly one final event and its last
element is final. -/
theorem C1_amended_thm :
    (∀ (items : List GraphMessage) (sr : Option StateValue),
      CurrencyAgent.stream items sr ≠ [] ∧
      (CurrencyAgent.stream items sr).getLast? = some (CurrencyAgent.get_agent_response sr) ∧
      (CurrencyAgent.stream items sr).countP (fun e => e.is_task_complete) =
        (if srIsCompleted sr then 1 else 0) ∧
      (∀ e ∈ CurrencyAgent.stream items sr, e.is_task_complete = true →
        (CurrencyAgent.stream items sr).getLast? = some e)) ∧
    (∀ (items : List GraphMessage) (sr : Option StateValue),
      UnitConversionAgent.stream items sr ≠ [] ∧
      (UnitConversionAgent.stream items sr).getLast? = some (UnitConversionAgent.get_agent_response sr) ∧
      (UnitConversionAgent.stream items sr).countP (fun e => e.is_task_complete) =
        (if srIsCompleted sr then 1 else 0) ∧
      (∀ e ∈ UnitConversionAgent.stream items sr, e.is_task_complete = true →
        (UnitConversionAgent.stream items sr).getLast? = some e)) ∧
    (∀ events : List AdkEvent, PdfSplitAgent.runnerWellFormed events = true →
      (PdfSplitAgent.stream events).countP (fun e => e.is_task_complete) = 1 ∧
      (∃ e, (PdfSplitAgent.stream events).getLast? = some e ∧ e.is_task_complete = true)) := by
  refine ⟨?_, ?_, ?_⟩
  · intro items sr
    refine ⟨by simp [CurrencyAgent.stream], by simp [CurrencyAgent.stream, getLast_append_singleton], ?_, ?_⟩
    · unfold CurrencyAgent.stream
      rw [List.countP_append,
          countP_filterMap_eq_zero _ _ CurrencyAgent.currency_streamEventFor_not_final]
      simp [List.countP_cons, CurrencyAgent.currency_response_final_iff]
    · intro e he hfin
      unfold CurrencyAgent.stream at he ⊢
      rcases List.mem_append.mp he with hmem | hmem
      · obtain ⟨m, _, hfm⟩ := List.mem_filterMap.mp hmem
        have := CurrencyAgent.currency_streamEventFor_not_final m e hfm
        rw [hfin] at this
        exact absurd this (by simp)
      · have he2 : e = CurrencyAgent.get_agent_response sr := by simpa using hmem
        rw [he2, getLast_append_singleton]
  · intro items sr
    refine ⟨by simp [UnitConversionAgent.stream], by simp [UnitConversionAgent.stream, getLast_append_singleton], ?_, ?_⟩
    · unfold UnitConversionAgent.stream
      rw [List.countP_append,
          countP_filterMap_eq_zero _ _ UnitConversionAgent.unit_streamEventFor_not_final]
      simp [List.countP_cons, UnitConversionAgent.unit_response_final_iff]
    · intro e he hfin
      unfold UnitConversionAgent.stream at he ⊢
      rcases List.mem_append.mp he with hmem | hmem
      · obtain ⟨m, _, hfm⟩ := List.mem_filterMap.mp hmem
        have := UnitConversionAgent.unit_streamEventFor_not_final m e hfm
        rw [hfin] at this
        exact absurd this (by simp)
      · have he2 : e = UnitConversionAgent.get_agent_response sr := by simpa using hmem
        rw [he2, getLast_append_singleton]
  · intro events hw
    unfold PdfSplitAgent.runnerWellFormed at hw
    obtain ⟨h1, h2⟩ := (Bool.and_eq_true _ _).mp hw
    have hcount : events.countP (fun e => e.isFinalResponse) = 1 := by
      simpa using h1
    constructor
    · unfold PdfSplitAgent.stream
      rw [List.countP_map]
      have hco : ((fun e : PdfEvent => e.is_task_complete) ∘ PdfSplitAgent.streamEventFor) =
          (fun e : AdkEvent => e.isFinalResponse) := by
        funext e
        simp [Function.comp, PdfSplitAgent.streamEventFor_final_iff]
      rw [hco, hcount]
    · cases hg : events.getLast? with
      | none => rw [hg] at h2; simp at h2
      | some e0 =>
          rw [hg] at h2
          refine ⟨PdfSplitAgent.streamEventFor e0, ?_, ?_⟩
          · unfold PdfSplitAgent.stream
            rw [List.getLast?_map, hg]
            rfl
          · rw [PdfSplitAgent.streamEventFor_final_iff]
            exact h2

/-- Witness for C1 (amended) at concrete inputs: a completed currency
turn has exactly one final event, and a well-formed ADK runner sequence
gives the PDF stream exactly one final event. -/
theorem C1_amended_witness :
    PdfSplitAgent.runnerWellFormed
      [{ isFinalResponse := false, parts := [] },
       { isFinalResponse := true, parts := [some "Split done."] }] = true ∧
    (PdfSplitAgent.stream
      [{ isFinalResponse := false, parts := [] },
       { isFinalResponse := true, parts := [some "Split done."] }]).countP
        (fun e => e.is_task_complete) = 1 ∧
    (CurrencyAgent.stream []
      (some (.respFormat { status := .completed, message := "1 USD = 0.92 EUR" }))).countP
        (fun e => e.is_task_complete) = 1 := by
  refine ⟨by decide, (C1_amended_thm.2.2 _ (by decide)).1, ?_⟩
  have h := (C1_amended_thm.1 []
    (some (.respFormat { status := .completed, message := "1 USD = 0.92 EUR" }))).2.2.1
  simpa [srIsCompleted] using h

/-! ## C2 -/

/-- C2: for every turn budget B, if the reasoning step requests a tool
call at every cycle, the (spec-modelled) turn engine terminates within
B Reasoning-Dispatching cycles — it executes exactly B — and yields a
terminal structured response with status error and message
TurnBudgetExceeded, by the explicit budget cap. -/
theorem C2_thm (reason : List HistMsg → ReasoningOutput)
    (dispatch : ToolInvocation → ToolResultOutcome) (B : Nat) (hist : List HistMsg)
    (h : ∀ hs, ∃ inv, reason hs = .toolCall inv) :
    (runTurn reason dispatch B hist).1 =
      { status := .error, message := "TurnBudgetExceeded" } ∧
    (runTurn reason dispatch B hist).2 = B := by
  induction B generalizing hist with
  | zero => exact ⟨rfl, rfl⟩
  | succ b ih =>
      obtain ⟨inv, hinv⟩ := h hist
      have hrec := ih (hist ++ [.assistantToolCall inv, .toolResult (dispatch inv)])
      simp [runTurn, hinv, hrec.1, hrec.2]

/-- Witness for C2 at a concrete input: a reasoning step that always
requests get_exchange_rate, budget 3. -/
theorem C2_witness :
    (runTurn (fun _ => .toolCall { name := "get_exchange_rate", args := [] })
       (fun _ => .success "rates") 3 []).1 =
      { status := .error, message := "TurnBudgetExceeded" } ∧
    (runTurn (fun _ => .toolCall { name := "get_exchange_rate", args := [] })
       (fun _ => .success "rates") 3 []).2 = 3 :=
  C2_thm (fun _ => .toolCall { name := "get_exchange_rate", args := [] })
    (fun _ => .success "rates") 3 [] (fun _ => ⟨_, rfl⟩)

/-! ## C3 -/

/-- C3: the never-raises contract fails for
`CurrencyService.get_exchange_rate` on a 2xx response whose body is
valid JSON but a non-container (here JSON null): the membership test
`if 'rates' not in data` raises a TypeError caught by neither the
`httpx.HTTPError` nor the `ValueError` handler, contradicting the
docstring (return a dictionary with the data or an error message).
The companion `convert_units`, whose handlers end in a catch-all
`except Exception`, never raises for any input and any HTTP behaviour. -/
theorem C3_thm :
    pyRaises (CurrencyService.get_exchange_rate "USD" "EUR" "latest"
        (.response 200 (.jsonBody .null))) = true ∧
    CurrencyService.get_exchange_rate "USD" "EUR" "latest"
        (.response 200 (.jsonBody .null)) =
      .error (.typeError "argument of type NoneType is not iterable") ∧
    (∀ (value from_unit to_unit : String) (http : TextHttpBehaviour),
      pyRaises (convert_units value from_unit to_unit http) = false) := by
  refine ⟨rfl, rfl, ?_⟩
  intro v f t http
  cases http with
  | networkError msg => rfl
  | response status text =>
      unfold convert_units
      dsimp only
      repeat' split
      all_goals rfl

/-! ## C4 -/

/-- C4, as stated, is false in its last conjunct: the caller-facing
events for input_required and for error are not tagged differently from
one another — at the concrete message below both branches of
`get_agent_response` return the same dictionary. -/
theorem C4_counterexample :
    ¬ (CurrencyAgent.get_agent_response
         (some (.respFormat { status := .input_required, message := "Which currencies do you want?" })) ≠
       CurrencyAgent.get_agent_response
         (some (.respFormat { status := .error, message := "Which currencies do you want?" }))) := by
  intro h
  exact h rfl

/-- C4 (amended): for both langgraph agents, get_agent_response treats
input_required and error as non-final (`is_task_complete = false`) and
completed as final (`is_task_complete = true`), but input_required and
error are tagged identically (`is_task_complete = false`,
`require_user_input = true`), distinguished only by their message text,
not tagged differently from one another. -/
theorem C4_amended_thm (m : String) :
    CurrencyAgent.get_agent_response (some (.respFormat { status := .input_required, message := m })) =
      { is_task_complete := false, require_user_input := true, content := m } ∧
    CurrencyAgent.get_agent_response (some (.respFormat { status := .error, message := m })) =
      { is_task_complete := false, require_user_input := true, content := m } ∧
    CurrencyAgent.get_agent_response (some (.respFormat { status := .completed, message := m })) =
      { is_task_complete := true, require_user_input := false, content := m } ∧
    CurrencyAgent.get_agent_response (some (.respFormat { status := .input_required, message := m })) =
      CurrencyAgent.get_agent_response (some (.respFormat { status := .error, message := m })) ∧
    UnitConversionAgent.get_agent_response (some (.respFormat { status := .input_required, message := m })) =
      { is_task_complete := false, require_user_input := true, content := m } ∧
    UnitConversionAgent.get_agent_response (some (.respFormat { status := .error, message := m })) =
      { is_task_complete := false, require_user_input := true, content := m } ∧
    UnitConversionAgent.get_agent_response (some (.respFormat { status := .completed, message := m })) =
      { is_task_complete := true, require_user_input := false, content := m } ∧
    UnitConversionAgent.get_agent_response (some (.respFormat { status := .input_required, message := m })) =
      UnitConversionAgent.get_agent_response (some (.respFormat { status := .error, message := m })) :=
  ⟨rfl, rfl, rfl, rfl, rfl, rfl, rfl, rfl⟩

/-! ## C5 -/

/-- C5: for every message M and every run of intermediate items, if the
terminal structured response has status completed and message M, the
final event emitted by the stream (its last element) is marked final
(`is_task_complete = true`) and its content equals M exactly — for both
langgraph agents. -/
theorem C5_thm (items : List GraphMessage) (M : String) :
    (CurrencyAgent.stream items
        (some (.respFormat { status := .completed, message := M }))).getLast? =
      some { is_task_complete := true, require_user_input := false, content := M } ∧
    (UnitConversionAgent.stream items
        (some (.respFormat { status := .completed, message := M }))).getLast? =
      some { is_task_complete := true, require_user_input := false, content := M } := by
  constructor <;>
    simp [CurrencyAgent.stream, UnitConversionAgent.stream,
      CurrencyAgent.get_agent_response, UnitConversionAgent.get_agent_response,
      getLast_append_singleton]

/-! ## C6 -/

/-- The streamed graph items of the C6 scenario: the user query state,
the reasoning state requesting one exchange-rate tool call, the state
after the tool result is folded in (last message a ToolMessage), and
the final reasoning state with no tool calls. -/
def c6Items : List GraphMessage :=
  [.human "How much is 1 USD in EUR?",
   .ai [{ name := "get_exchange_rate",
          args := [("currency_from", "USD"), ("currency_to", "EUR"),
                   ("currency_date", "latest")] }],
   .toolMsg "rates EUR 0.92",
   .ai []]

/-- The terminal structured response of the C6 scenario. -/
def c6StructuredResponse : Option StateValue :=
  some (.respFormat { status := .completed, message := "1 USD = 0.92 EUR" })

/-- C6, as stated, is false: in the scenario the stream emits three
events, not exactly two — the loop also yields a non-final event for
the ToolMessage state between the tool-call announcement and the final
event. -/
theorem C6_counterexample :
    (CurrencyAgent.stream c6Items c6StructuredResponse).length ≠ 2 := by
  decide

/-- C6 (amended): in the scenario the stream emits exactly three
events: a non-final progress event announcing the exchange-rate lookup,
a non-final progress event for the tool result being processed, and the
final event with content 1 USD = 0.92 EUR. -/
theorem C6_amended_thm :
    CurrencyAgent.stream c6Items c6StructuredResponse =
      [{ is_task_complete := false, require_user_input := false,
         content := "Looking up the exchange rates..." },
       { is_task_complete := false, require_user_input := false,
         content := "Processing the exchange rates.." },
       { is_task_complete := true, require_user_input := false,
         content := "1 USD = 0.92 EUR" }] := rfl

/-! ## C7 -/

/-- C7: if the child process crashes mid-invocation, the pending
invocation fails with TransportError and the (spec-modelled) adapter
marks itself unusable; every subsequent invocation on the same adapter
instance, whatever the channel would do, fails immediately with
HandshakeError and leaves the adapter unchanged, until restart makes it
usable again. -/
theorem C7_thm (a : ChildAdapter) (h : a.usable = true) :
    (a.invoke .crashesMidInvocation).1 = .failure .transportError ∧
    (a.invoke .crashesMidInvocation).2.usable = false ∧
    (∀ beh, ((a.invoke .crashesMidInvocation).2.invoke beh).1 = .failure .handshakeError ∧
      ((a.invoke .crashesMidInvocation).2.invoke beh).2 = (a.invoke .crashesMidInvocation).2) ∧
    ((a.invoke .crashesMidInvocation).2.restart).usable = true := by
  refine ⟨?_, ?_, ?_, ?_⟩ <;>
    simp [ChildAdapter.invoke, ChildAdapter.restart, h]

/-- Witness for C7 at the concrete usable adapter. -/
theorem C7_witness :
    (ChildAdapter.invoke { usable := true } .crashesMidInvocation).1 =
      .failure .transportError ∧
    (ChildAdapter.invoke { usable := true } .crashesMidInvocation).2.usable = false ∧
    (∀ beh, ((ChildAdapter.invoke { usable := true } .crashesMidInvocation).2.invoke beh).1 =
        .failure .handshakeError ∧
      ((ChildAdapter.invoke { usable := true } .crashesMidInvocation).2.invoke beh).2 =
        (ChildAdapter.invoke { usable := true } .crashesMidInvocation).2) ∧
    ((ChildAdapter.invoke { usable := true } .crashesMidInvocation).2.restart).usable = true :=
  C7_thm { usable := true } rfl

/-! ## C8 -/

/-- C8: whenever the graph state has no structured_response value, or a
value that is not a ResponseFormat instance, the caller still receives
a final (terminal) event whose content is the fixed human-readable
fallback message, for both langgraph agents; the content is that fixed
string, never internal exception text. -/
theorem C8_thm (itemsC itemsU : List GraphMessage) (sr : Option StateValue)
    (h : sr = none ∨ sr = some .nonRespFormat) :
    (CurrencyAgent.stream itemsC sr).getLast? = some fallbackResponse ∧
    (UnitConversionAgent.stream itemsU sr).getLast? = some fallbackResponse ∧
    fallbackResponse.content =
      "We are unable to process your request at the moment. Please try again." := by
  rcases h with h | h <;> subst h <;>
    exact ⟨by simp [CurrencyAgent.stream, CurrencyAgent.get_agent_response,
            getLast_append_singleton],
          by simp [UnitConversionAgent.stream, UnitConversionAgent.get_agent_response,
            getLast_append_singleton],
          rfl⟩

/-- Witness for C8 at concrete inputs: empty item run, absent
structured response. -/
theorem C8_witness :
    (CurrencyAgent.stream [] none).getLast? = some fallbackResponse ∧
    (UnitConversionAgent.stream [] none).getLast? = some fallbackResponse ∧
    fallbackResponse.content =
      "We are unable to process your request at the moment. Please try again." :=
  C8_thm [] [] none (Or.inl rfl)

/-! ## C9 -/

/-- C9: whenever `CurrencyService.get_exchange_rate` returns a
dictionary that has no error key, that dictionary has a rates key, so
callers can discriminate success from failure by the presence of the
error key alone. -/
theorem C9_thm (cf ct cd : String) (http : HttpBehaviour) (d : List (String × Json))
    (hok : CurrencyService.get_exchange_rate cf ct cd http = .ok (.obj d))
    (herr : Json.hasKey d "error" = false) :
    Json.hasKey d "rates" = true := by
  cases http with
  | networkError msg =>
      simp only [CurrencyService.get_exchange_rate, Except.ok.injEq, Json.obj.injEq] at hok
      subst hok
      simp [Json.hasKey] at herr
  | response status body =>
      simp only [CurrencyService.get_exchange_rate] at hok
      rcases hrs : raiseForStatusFails status with _ | _
      · rw [hrs] at hok
        simp only [Bool.false_eq_true, if_false] at hok
        cases body with
        | invalidJson raw =>
            simp only [Except.ok.injEq, Json.obj.injEq] at hok
            subst hok
            simp [Json.hasKey] at herr
        | jsonBody data =>
            cases data with
            | obj fields =>
                simp only [Json.pyContains] at hok
                rcases hk : Json.hasKey fields "rates" with _ | _
                · rw [hk] at hok
                  simp only [Except.ok.injEq, Json.obj.injEq] at hok
                  subst hok
                  simp [Json.hasKey] at herr
                · rw [hk] at hok
                  simp only [Except.ok.injEq, Json.obj.injEq] at hok
                  subst hok
                  exact hk
            | arr items =>
                simp only [Json.pyContains] at hok
                rcases hk : items.any (fun j => j.eqStr "rates") with _ | _
                · rw [hk] at hok
                  simp only [Except.ok.injEq, Json.obj.injEq] at hok
                  subst hok
                  simp [Json.hasKey] at herr
                · rw [hk] at hok
                  simp only [Except.ok.injEq] at hok
                  exact absurd hok (by simp)
            | str s =>
                simp only [Json.pyContains] at hok
                rcases hk : decide ((s.splitOn "rates").length ≥ 2) with _ | _
                · rw [hk] at hok
                  simp only [Except.ok.injEq, Json.obj.injEq] at hok
                  subst hok
                  simp [Json.hasKey] at herr
                · rw [hk] at hok
                  simp only [Except.ok.injEq] at hok
                  exact absurd hok (by simp)
            | num lit => simp [Json.pyContains] at hok
            | bool b => simp [Json.pyContains] at hok
            | null => simp [Json.pyContains] at hok
      · rw [hrs] at hok
        simp only [if_true, Except.ok.injEq, Json.obj.injEq] at hok
        subst hok
        simp [Json.hasKey] at herr

/-- Witness for C9 at a concrete successful exchange: a 200 response
whose JSON object carries amount, base, date and rates. -/
theorem C9_witness :
    CurrencyService.get_exchange_rate "USD" "EUR" "latest"
        (.response 200 (.jsonBody (.obj
          [("amount", .num "1.0"), ("base", .str "USD"),
           ("date", .str "2024-01-05"), ("rates", .obj [("EUR", .num "0.92")])]))) =
      .ok (.obj [("amount", .num "1.0"), ("base", .str "USD"),
           ("date", .str "2024-01-05"), ("rates", .obj [("EUR", .num "0.92")])]) ∧
    Json.hasKey [("amount", Json.num "1.0"), ("base", Json.str "USD"),
           ("date", Json.str "2024-01-05"), ("rates", Json.obj [("EUR", Json.num "0.92")])]
        "error" = false ∧
    Json.hasKey [("amount", Json.num "1.0"), ("base", Json.str "USD"),
           ("date", Json.str "2024-01-05"), ("rates", Json.obj [("EUR", Json.num "0.92")])]
        "rates" = true :=
  ⟨rfl, rfl,
   C9_thm "USD" "EUR" "latest"
     (.response 200 (.jsonBody (.obj
       [("amount", .num "1.0"), ("base", .str "USD"),
        ("date", .str "2024-01-05"), ("rates", .obj [("EUR", .num "0.92")])])))
     [("amount", .num "1.0"), ("base", .str "USD"),
      ("date", .str "2024-01-05"), ("rates", .obj [("EUR", .num "0.92")])]
     rfl rfl⟩

/-! ## C10 -/

/-- Once the tools are loaded, any further initialization calls leave
the agent state untouched. -/
theorem runInitCalls_of_initialized (s : CurrencyAgentRes)
    (h : s.tools.isNone = false) (envs : List McpInitEnv) :
    CurrencyAgent.runInitCalls envs s = s := by
  induction envs with
  | nil => rfl
  | cons e es ih =>
      have hstep : CurrencyAgent.initialize_tools e s = s := by
        unfold CurrencyAgent.initialize_tools
        simp [h]
      calc CurrencyAgent.runInitCalls (e :: es) s
          = CurrencyAgent.runInitCalls es (CurrencyAgent.initialize_tools e s) := rfl
        _ = CurrencyAgent.runInitCalls es s := by rw [hstep]
        _ = s := ih

/-- C10: tool initialization is idempotent.  The first `invoke`/`stream`
call on a fresh agent creates the session, the tool list and the graph
and starts the child process exactly once; every subsequent call — under
any environment — leaves all of them unchanged, so the child process is
started at most once per agent instance across any sequence of
invoke/stream calls. -/
theorem C10_thm (env : McpInitEnv) (envs : List McpInitEnv) :
    (CurrencyAgent.initialize_tools env CurrencyAgent.initialState).session =
      some env.sessionId ∧
    (CurrencyAgent.initialize_tools env CurrencyAgent.initialState).tools =
      some env.loadedTools ∧
    (CurrencyAgent.initialize_tools env CurrencyAgent.initialState).graph =
      some env.loadedTools ∧
    (CurrencyAgent.initialize_tools env CurrencyAgent.initialState).childStarts = 1 ∧
    CurrencyAgent.runInitCalls envs
        (CurrencyAgent.initialize_tools env CurrencyAgent.initialState) =
      CurrencyAgent.initialize_tools env CurrencyAgent.initialState ∧
    (CurrencyAgent.runInitCalls (env :: envs) CurrencyAgent.initialState).childStarts = 1 := by
  have hfst : CurrencyAgent.initialize_tools env CurrencyAgent.initialState =
      { session := some env.sessionId, tools := some env.loadedTools,
        graph := some env.loadedTools, childStarts := 1 } := rfl
  have hrest : CurrencyAgent.runInitCalls envs
      (CurrencyAgent.initialize_tools env CurrencyAgent.initialState) =
      CurrencyAgent.initialize_tools env CurrencyAgent.initialState :=
    runInitCalls_of_initialized _ (by rw [hfst]; rfl) envs
  refine ⟨rfl, rfl, rfl, rfl, hrest, ?_⟩
  have hcons : CurrencyAgent.runInitCalls (env :: envs) CurrencyAgent.initialState =
      CurrencyAgent.runInitCalls envs
        (CurrencyAgent.initialize_tools env CurrencyAgent.initialState) := rfl
  rw [hcons, hrest, hfst]
